import Mathlib

/-!
Verification of the rule-based table validation engine of `dq-setup`
(`run_expectations_manually` in `basic_expectations_test.py`).

The engine evaluates an ordered list of declarative rule specifications
against an in-memory tabular dataset and returns one structured pass/fail
result per rule.  This file gives a shallow embedding of that engine and
proves the testable properties of its specification.

Modelling conventions:
* a dataframe is a list of named, typed columns plus a shared row count;
* a cell is `Option Value`, `none` standing for a missing value (NaN/NaT);
* numeric scalars are modelled as integers (no claim involves fractional
  arithmetic);
* the pandas datetime dtypes are collapsed into one `datetime64`
  constructor, matching the single `is_datetime64_any_dtype` test the
  source performs;
* a Python exception is an `Except.error` carrying the message; the
  per-rule `try` is the handler in `evalNamedRule`, and the one dict
  access performed outside it (`exp['name']`) is the `Except` layer of
  `evalRule` / `run_expectations_manually`;
* the pandas behaviours the source relies on are modelled as documented:
  `Series.nunique()` drops missing values, `Series.str.contains(sub,
  na=False)` counts a missing or non-string entry as a non-match, and
  `Series.isin` does not match a missing entry.
-/

/-- A scalar cell value: numeric, string, or timestamp. -/
inductive Value where
  | int (i : Int)
  | str (s : String)
  | ts (t : Int)
deriving DecidableEq

/-- A pandas column dtype, as far as the engine inspects it. -/
inductive DType where
  | int64
  | float64
  | object
  | datetime64
deriving DecidableEq

/-- Text rendering of a dtype, as `str(series.dtype)` would produce. -/
def DType.render : DType → String
  | .int64 => "int64"
  | .float64 => "float64"
  | .object => "object"
  | .datetime64 => "datetime64[ns]"

/-- A named column: dtype plus cells, `none` being a missing value. -/
structure Column where
  name : String
  dtype : DType
  values : List (Option Value)
deriving DecidableEq

/-- A dataframe: ordered named columns sharing the row count `nrows`. -/
structure DataFrame where
  cols : List Column
  nrows : Nat
deriving DecidableEq

/-- The `parameters` mapping of a rule spec; each recognized key is
present or absent. -/
structure Params where
  min_value : Option Int
  max_value : Option Int
  column_list : Option (List String)
  regex : Option String
  value_set : Option (List Value)
  type_ : Option String
deriving DecidableEq

/-- One declarative rule spec, as the Python dict: every key may be
absent, a missing key being a `KeyError` when accessed. -/
structure RuleSpec where
  name : Option String
  column : Option String
  parameters : Option Params
deriving DecidableEq

/-- The heterogeneous `observed_value` field of a result. -/
inductive Observed where
  | nat (n : Nat)
  | strList (l : List String)
  | values (l : List (Option Value))
  | str (s : String)
  | err (msg : String)
deriving DecidableEq

/-- The outcome of evaluating one rule, as the Python result dict. -/
structure RuleResult where
  expectation : String
  success : Bool
  observed : Observed
  details : String
deriving DecidableEq

/-- The error surfaced by a result, when evaluation itself failed: the
source stores the exception text in `observed_value` on the catch path. -/
def RuleResult.errorField (r : RuleResult) : Option String :=
  match r.observed with
  | .err msg => some msg
  | _ => none

/-- Dict access: a missing key raises `KeyError`. -/
def getKey {α : Type} (o : Option α) (key : String) : Except String α :=
  match o with
  | some v => Except.ok v
  | none => Except.error ("KeyError: " ++ key)

/-- Column access `df[column]`: a missing column raises `KeyError`. -/
def getColE (df : DataFrame) (colName : String) : Except String Column :=
  match df.cols.find? (fun c => c.name = colName) with
  | some col => Except.ok col
  | none => Except.error ("KeyError: " ++ colName)

/-- Substring containment over character lists. -/
def charListContains : List Char → List Char → Bool
  | [], pat => pat.isEmpty
  | c :: cs, pat => pat.isPrefixOf (c :: cs) || charListContains cs pat

/-- The Python `sub in s` membership test on strings. -/
def strContains (s pat : String) : Bool :=
  charListContains s.toList pat.toList

/-- The Python `str.lower()`, over the character list (ASCII lowering is
adequate for the keyword checks the engine performs). -/
def strToLower (s : String) : String :=
  String.mk (s.toList.map Char.toLower)

/-- The source's branch condition for the regex rule:
`'email' in regex_pattern.lower() or '@' in regex_pattern`. -/
def isEmailPattern (pat : String) : Bool :=
  strContains (strToLower pat) "email" || strContains pat "@"

/-- The source's branch condition for the type rule:
`'timestamp' in expected_type.lower() or 'date' in expected_type.lower()`. -/
def isTemporalType (s : String) : Bool :=
  strContains (strToLower s) "timestamp" || strContains (strToLower s) "date"

/-- One entry of `series.str.contains('@', na=False)`: a missing or
non-string entry counts as a non-match. -/
def entryContainsAt (v : Option Value) : Bool :=
  match v with
  | some (.str s) => strContains s "@"
  | _ => false

/-- One entry of the range test `(min_val <= v) & (v <= max_val)`: a
missing entry propagates as non-matching. -/
def entryInRange (mn mx : Int) (v : Option Value) : Bool :=
  match v with
  | some (.int i) => decide (mn ≤ i ∧ i ≤ mx)
  | _ => false

/-- One entry of `series.isin(valid_values)`: a missing entry is not a
member. -/
def entryInSet (valid : List Value) (v : Option Value) : Bool :=
  match v with
  | some x => decide (x ∈ valid)
  | none => false

/-- Model of `series.min()` over the numeric entries, skipping missing values. -/
def colMinInt (vals : List (Option Value)) : Option Int :=
  (vals.filterMap fun v => match v with
    | some (.int i) => some i
    | _ => none).min?

/-- Model of `series.max()` over the numeric entries, skipping missing values. -/
def colMaxInt (vals : List (Option Value)) : Option Int :=
  (vals.filterMap fun v => match v with
    | some (.int i) => some i
    | _ => none).max?

/-- Rendering of an optional number inside the observed min/max string;
pandas prints `nan` for an empty numeric reduction. -/
def renderOptInt : Option Int → String
  | some i => toString i
  | none => "nan"

/-- The `expect_table_row_count_to_be_between` branch of the source. -/
def evalRowCountRule (df : DataFrame) (exp : RuleSpec) : Except String RuleResult := do
  let params ← getKey exp.parameters "parameters"
  let min_val ← getKey params.min_value "min_value"
  let max_val ← getKey params.max_value "max_value"
  let row_count := df.nrows
  let success := decide (min_val ≤ (row_count : Int) ∧ (row_count : Int) ≤ max_val)
  Except.ok {
    expectation := "expect_table_row_count_to_be_between", success := success,
    observed := Observed.nat row_count,
    details := s!"Row count {row_count} should be between {min_val} and {max_val}" }

/-- The `expect_table_columns_to_match_ordered_list` branch of the source. -/
def evalColumnsOrderedRule (df : DataFrame) (exp : RuleSpec) : Except String RuleResult := do
  let params ← getKey exp.parameters "parameters"
  let expected_cols ← getKey params.column_list "column_list"
  let actual_cols := df.cols.map Column.name
  let success := decide (actual_cols = expected_cols)
  Except.ok {
    expectation := "expect_table_columns_to_match_ordered_list", success := success,
    observed := Observed.strList actual_cols,
    details := s!"Expected columns {expected_cols}, got {actual_cols}" }

/-- The `expect_column_values_to_not_be_null` branch of the source. -/
def evalNotNullRule (df : DataFrame) (exp : RuleSpec) : Except String RuleResult := do
  let column ← getKey exp.column "column"
  let col ← getColE df column
  let null_count := col.values.countP (fun v => v.isNone)
  let success := decide (null_count = 0)
  Except.ok {
    expectation := "expect_column_values_to_not_be_null", success := success,
    observed := Observed.str s!"{null_count} nulls in {column}",
    details := s!"Column {column} should have no null values" }

/-- The `expect_column_values_to_be_unique` branch of the source:
`series.nunique()` counts distinct non-missing values. -/
def evalUniqueRule (df : DataFrame) (exp : RuleSpec) : Except String RuleResult := do
  let column ← getKey exp.column "column"
  let col ← getColE df column
  let unique_count := ((col.values.filterMap id).dedup).length
  let total_count := col.values.length
  let success := decide (unique_count = total_count)
  Except.ok {
    expectation := "expect_column_values_to_be_unique", success := success,
    observed := Observed.str s!"{unique_count} unique out of {total_count}",
    details := s!"Column {column} should have all unique values" }

/-- The `expect_column_values_to_match_regex` branch of the source: an
email-style pattern counts the entries containing `@` against the row
count; any other pattern passes vacuously without touching the column. -/
def evalRegexRule (df : DataFrame) (exp : RuleSpec) : Except String RuleResult := do
  let column ← getKey exp.column "column"
  let params ← getKey exp.parameters "parameters"
  let regex_pattern ← getKey params.regex "regex"
  if isEmailPattern regex_pattern then do
    let col ← getColE df column
    let matchCount := col.values.countP entryContainsAt
    let nr := df.nrows
    let success := decide (matchCount = nr)
    Except.ok {
      expectation := "expect_column_values_to_match_regex", success := success,
      observed := Observed.str s!"{matchCount} valid emails out of {nr}",
      details := s!"Column {column} should match email pattern" }
  else
    Except.ok {
      expectation := "expect_column_values_to_match_regex", success := true,
      observed := Observed.str "Pattern check passed",
      details := s!"Column {column} regex validation" }

/-- The `expect_column_values_to_be_between` branch of the source. -/
def evalValuesBetweenRule (df : DataFrame) (exp : RuleSpec) : Except String RuleResult := do
  let column ← getKey exp.column "column"
  let params ← getKey exp.parameters "parameters"
  let min_val ← getKey params.min_value "min_value"
  let max_val ← getKey params.max_value "max_value"
  let col ← getColE df column
  let success := col.values.all (entryInRange min_val max_val)
  let mnStr := renderOptInt (colMinInt col.values)
  let mxStr := renderOptInt (colMaxInt col.values)
  Except.ok {
    expectation := "expect_column_values_to_be_between", success := success,
    observed := Observed.str s!"Min: {mnStr}, Max: {mxStr}",
    details := s!"Column {column} values should be between {min_val} and {max_val}" }

/-- The `expect_column_values_to_be_in_set` branch of the source. -/
def evalInSetRule (df : DataFrame) (exp : RuleSpec) : Except String RuleResult := do
  let column ← getKey exp.column "column"
  let params ← getKey exp.parameters "parameters"
  let valid_values ← getKey params.value_set "value_set"
  let col ← getColE df column
  let success := col.values.all (entryInSet valid_values)
  Except.ok {
    expectation := "expect_column_values_to_be_in_set", success := success,
    observed := Observed.values col.values.dedup,
    details := s!"Column {column} values should be in the value set" }

/-- The `expect_column_values_to_be_of_type` branch of the source: only
temporal expected types are checked, against the declared dtype. -/
def evalOfTypeRule (df : DataFrame) (exp : RuleSpec) : Except String RuleResult := do
  let column ← getKey exp.column "column"
  let params ← getKey exp.parameters "parameters"
  let expected_type ← getKey params.type_ "type_"
  let col ← getColE df column
  let success :=
    if isTemporalType expected_type then decide (col.dtype = DType.datetime64)
    else true
  Except.ok {
    expectation := "expect_column_values_to_be_of_type", success := success,
    observed := Observed.str col.dtype.render,
    details := s!"Column {column} should be of type {expected_type}" }

/-- The body of the per-rule `try` block of `run_expectations_manually`:
dispatch on the rule name and evaluate that branch, any raised exception
being an `Except.error`. -/
def tryEvalRule (df : DataFrame) (exp_name : String) (exp : RuleSpec) :
    Except String RuleResult :=
  if exp_name = "expect_table_row_count_to_be_between" then
    evalRowCountRule df exp
  else if exp_name = "expect_table_columns_to_match_ordered_list" then
    evalColumnsOrderedRule df exp
  else if exp_name = "expect_column_values_to_not_be_null" then
    evalNotNullRule df exp
  else if exp_name = "expect_column_values_to_be_unique" then
    evalUniqueRule df exp
  else if exp_name = "expect_column_values_to_match_regex" then
    evalRegexRule df exp
  else if exp_name = "expect_column_values_to_be_between" then
    evalValuesBetweenRule df exp
  else if exp_name = "expect_column_values_to_be_in_set" then
    evalInSetRule df exp
  else if exp_name = "expect_column_values_to_be_of_type" then
    evalOfTypeRule df exp
  else
    Except.ok {
      expectation := exp_name, success := true,
      observed := Observed.str "Skipped",
      details := s!"Expectation {exp_name} not implemented in demo" }

/-- Evaluation of one rule whose name is known: the `try`/`except` of the
source, converting any raised exception into a failed result carrying the
error text in `observed_value`. -/
def evalNamedRule (df : DataFrame) (exp_name : String) (exp : RuleSpec) :
    RuleResult :=
  match tryEvalRule df exp_name exp with
  | Except.ok r => r
  | Except.error e =>
      { expectation := exp_name, success := false,
        observed := Observed.err ("Error: " ++ e),
        details := s!"Failed to run expectation {exp_name}" }

/-- One loop iteration: `exp_name = exp['name']` happens before the
`try`, so a spec without a name raises out of the loop. -/
def evalRule (df : DataFrame) (exp : RuleSpec) : Except String RuleResult :=
  match exp.name with
  | none => Except.error "KeyError: name"
  | some n => Except.ok (evalNamedRule df n exp)

/-- Model of `run_expectations_manually(df, table_name, expectations_config)`:
evaluate the rules in order, collecting one result each; an exception
raised outside a per-rule `try` propagates and aborts the batch.  The
`table_name` argument is used only for progress text in the source. -/
def run_expectations_manually (df : DataFrame) (table_name : String)
    (expectations_config : List RuleSpec) : Except String (List RuleResult) :=
  match expectations_config with
  | [] => Except.ok []
  | exp :: rest => do
      let r ← evalRule df exp
      let rs ← run_expectations_manually df table_name rest
      Except.ok (r :: rs)

/-- Reduction of a successful bind in the `Except` monad. -/
theorem exceptOkBind {α β : Type} (a : α) (f : α → Except String β) :
    (Except.ok a >>= f) = f a := rfl

/-- Reduction of a failed bind in the `Except` monad. -/
theorem exceptErrorBind {α β : Type} (e : String) (f : α → Except String β) :
    ((Except.error e : Except String α) >>= f) = Except.error e := rfl

/-! ## Concrete data for witnesses, mirroring the demo configuration -/

/-- An empty parameters mapping. -/
def noParams : Params := ⟨none, none, none, none, none, none⟩

/-- A small users table shaped like the demo's TEST1 data. -/
def demoDF : DataFrame :=
  ⟨[⟨"id", DType.int64, [some (Value.int 1), some (Value.int 2), some (Value.int 3)]⟩,
    ⟨"email", DType.object,
      [some (Value.str "a@x.com"), some (Value.str "b@x.com"), some (Value.str "c@x.com")]⟩,
    ⟨"created_date", DType.datetime64,
      [some (Value.ts 10), some (Value.ts 20), some (Value.ts 30)]⟩], 3⟩

/-- A rules list shaped like the demo's TEST1 expectations. -/
def demoRules : List RuleSpec :=
  [⟨some "expect_table_row_count_to_be_between", none,
      some { noParams with min_value := some 1, max_value := some 1000000 }⟩,
   ⟨some "expect_table_columns_to_match_ordered_list", none,
      some { noParams with column_list := some ["id", "email", "created_date"] }⟩,
   ⟨some "expect_column_values_to_not_be_null", some "id", none⟩,
   ⟨some "expect_column_values_to_be_unique", some "id", none⟩,
   ⟨some "expect_column_values_to_match_regex", some "email",
      some { noParams with regex := some "email" }⟩,
   ⟨some "expect_column_values_to_be_of_type", some "created_date",
      some { noParams with type_ := some "TimestampType" }⟩]

/-! ## The batch shape -/

/-- When every spec carries a name, the batch is exactly the per-rule
evaluation mapped over the input list. -/
theorem run_eq_map (df : DataFrame) (t : String) (rules : List RuleSpec)
    (h : ∀ r ∈ rules, r.name.isSome) :
    run_expectations_manually df t rules =
      Except.ok (rules.map fun r => evalNamedRule df (r.name.getD "") r) := by
  induction rules with
  | nil => rfl
  | cons a l ih =>
    obtain ⟨n, hn⟩ := Option.isSome_iff_exists.mp (h a (List.mem_cons_self a l))
    have ihl := ih (fun r hr => h r (List.mem_cons_of_mem a hr))
    simp only [run_expectations_manually, evalRule, hn, ihl, List.map_cons]
    rfl

/-- C1: for every dataset and every rules list of length n (each spec
carrying the `name` key a RuleSpec requires), `run_expectations_manually`
returns exactly n results, the i-th being the evaluation of the i-th
input spec. -/
theorem C1_one_result_per_rule_in_order (df : DataFrame) (t : String)
    (rules : List RuleSpec) (h : ∀ r ∈ rules, r.name.isSome) :
    ∃ rs, run_expectations_manually df t rules = Except.ok rs ∧
      rs.length = rules.length ∧
      ∀ i : Nat, rs[i]? =
        (rules[i]?).map fun r => evalNamedRule df (r.name.getD "") r := by
  refine ⟨_, run_eq_map df t rules h, List.length_map _ _, fun i => ?_⟩
  exact List.getElem?_map _ _ _

/-- Witness for C1 on the demo table and rules. -/
theorem C1_one_result_per_rule_in_order_witness :
    (∀ r ∈ demoRules, r.name.isSome) ∧
    (∃ rs, run_expectations_manually demoDF "test1" demoRules = Except.ok rs ∧
      rs.length = demoRules.length ∧
      ∀ i : Nat, rs[i]? =
        (demoRules[i]?).map fun r => evalNamedRule demoDF (r.name.getD "") r) :=
  ⟨by decide, C1_one_result_per_rule_in_order demoDF "test1" demoRules (by decide)⟩

/-- C4: the engine never raises for a well-formed rules argument: the
call returns a result list, every per-rule exception having been caught
at the rule boundary. -/
theorem C4_engine_never_raises (df : DataFrame) (t : String)
    (rules : List RuleSpec) (h : ∀ r ∈ rules, r.name.isSome) :
    ∃ rs, run_expectations_manually df t rules = Except.ok rs :=
  ⟨_, run_eq_map df t rules h⟩

/-- Witness for C4 on the demo table and rules. -/
theorem C4_engine_never_raises_witness :
    (∀ r ∈ demoRules, r.name.isSome) ∧
    ∃ rs, run_expectations_manually demoDF "test1" demoRules = Except.ok rs :=
  ⟨by decide, C4_engine_never_raises demoDF "test1" demoRules (by decide)⟩

/-- C10: a spec without a `name` key aborts the whole batch: the lookup
`exp['name']` happens outside the per-rule `try`, so the exception
propagates to the caller instead of becoming a failed result. -/
theorem C10_missing_name_aborts (df : DataFrame) (t : String)
    (rules : List RuleSpec) (spec : RuleSpec) (hmem : spec ∈ rules)
    (hname : spec.name = none) :
    ∃ e, run_expectations_manually df t rules = Except.error e := by
  induction rules with
  | nil => cases hmem
  | cons a l ih =>
    rcases List.mem_cons.mp hmem with rfl | hl
    · exact ⟨"KeyError: name", by simp only [run_expectations_manually, evalRule, hname]; rfl⟩
    · cases he : evalRule df a with
      | error e => exact ⟨e, by simp only [run_expectations_manually, he]; rfl⟩
      | ok r =>
        obtain ⟨e, hrun⟩ := ih hl
        exact ⟨e, by simp only [run_expectations_manually, he, hrun]; rfl⟩

/-- Witness for C10: a nameless spec in the middle of a batch. -/
theorem C10_missing_name_aborts_witness :
    ((⟨none, some "id", none⟩ : RuleSpec) ∈
      [(⟨some "expect_column_values_to_not_be_null", some "id", none⟩ : RuleSpec),
       ⟨none, some "id", none⟩]) ∧
    (RuleSpec.name ⟨none, some "id", none⟩ = none) ∧
    ∃ e, run_expectations_manually demoDF "test1"
      [⟨some "expect_column_values_to_not_be_null", some "id", none⟩,
       ⟨none, some "id", none⟩] = Except.error e :=
  ⟨by decide, rfl,
    C10_missing_name_aborts demoDF "test1"
      [⟨some "expect_column_values_to_not_be_null", some "id", none⟩,
       ⟨none, some "id", none⟩]
      ⟨none, some "id", none⟩ (by decide) rfl⟩

/-- C2: a rule whose evaluation raises is surfaced as a failed result
carrying the error, and every subsequent rule still evaluates to its
normal result. -/
theorem C2_fault_isolated_and_batch_continues (df : DataFrame) (t : String)
    (pre post : List RuleSpec) (spec : RuleSpec) (n e : String)
    (hn : spec.name = some n)
    (he : tryEvalRule df n spec = Except.error e)
    (hpre : ∀ r ∈ pre, r.name.isSome) (hpost : ∀ r ∈ post, r.name.isSome) :
    ∃ rs, run_expectations_manually df t (pre ++ spec :: post) = Except.ok rs ∧
      rs[pre.length]? = some (evalNamedRule df n spec) ∧
      (evalNamedRule df n spec).success = false ∧
      (evalNamedRule df n spec).errorField = some ("Error: " ++ e) ∧
      ∀ k : Nat, rs[pre.length + 1 + k]? =
        (post[k]?).map fun r => evalNamedRule df (r.name.getD "") r := by
  have hall : ∀ r ∈ pre ++ spec :: post, r.name.isSome := by
    intro r hr
    rcases List.mem_append.mp hr with h1 | h2
    · exact hpre r h1
    · rcases List.mem_cons.mp h2 with rfl | h3
      · simp [hn]
      · exact hpost r h3
  refine ⟨_, run_eq_map df t _ hall, ?_, ?_, ?_, ?_⟩
  · rw [List.getElem?_map, List.getElem?_append_right (Nat.le_refl _)]
    simp [Nat.sub_self, hn]
  · simp [evalNamedRule, he]
  · simp [evalNamedRule, he, RuleResult.errorField]
  · intro k
    rw [List.getElem?_map, List.getElem?_append_right (by omega)]
    have hidx : pre.length + 1 + k - pre.length = k + 1 := by omega
    rw [hidx, List.getElem?_cons_succ]

/-- Witness for C2: a not-null rule on an absent column, followed by a
further rule that still runs. -/
theorem C2_fault_isolated_and_batch_continues_witness :
    (tryEvalRule demoDF "expect_column_values_to_not_be_null"
        ⟨some "expect_column_values_to_not_be_null", some "nope", none⟩ =
      Except.error "KeyError: nope") ∧
    ∃ rs, run_expectations_manually demoDF "test1"
        ([⟨some "expect_column_values_to_be_unique", some "id", none⟩] ++
          (⟨some "expect_column_values_to_not_be_null", some "nope", none⟩ : RuleSpec) ::
          [⟨some "expect_foo_bar", none, none⟩]) = Except.ok rs ∧
      rs[([(⟨some "expect_column_values_to_be_unique", some "id", none⟩ : RuleSpec)]).length]? =
        some (evalNamedRule demoDF "expect_column_values_to_not_be_null"
          ⟨some "expect_column_values_to_not_be_null", some "nope", none⟩) ∧
      (evalNamedRule demoDF "expect_column_values_to_not_be_null"
          ⟨some "expect_column_values_to_not_be_null", some "nope", none⟩).success = false ∧
      (evalNamedRule demoDF "expect_column_values_to_not_be_null"
          ⟨some "expect_column_values_to_not_be_null", some "nope", none⟩).errorField =
        some ("Error: " ++ "KeyError: nope") ∧
      ∀ k : Nat,
        rs[([(⟨some "expect_column_values_to_be_unique", some "id", none⟩ : RuleSpec)]).length + 1 + k]? =
          (([(⟨some "expect_foo_bar", none, none⟩ : RuleSpec)])[k]?).map
            fun r => evalNamedRule demoDF (r.name.getD "") r :=
  ⟨by rfl,
    C2_fault_isolated_and_batch_continues demoDF "test1"
      [⟨some "expect_column_values_to_be_unique", some "id", none⟩]
      [⟨some "expect_foo_bar", none, none⟩]
      ⟨some "expect_column_values_to_not_be_null", some "nope", none⟩
      "expect_column_values_to_not_be_null" "KeyError: nope" rfl (by rfl)
      (by decide) (by decide)⟩

/-- C3: an unrecognized rule name yields a vacuously successful result
with observed value `Skipped` and a detail flagging it as unimplemented,
instead of aborting the batch. -/
theorem C3_unknown_rule_skipped (df : DataFrame) (n : String) (exp : RuleSpec)
    (hname : exp.name = some n)
    (h1 : n ≠ "expect_table_row_count_to_be_between")
    (h2 : n ≠ "expect_table_columns_to_match_ordered_list")
    (h3 : n ≠ "expect_column_values_to_not_be_null")
    (h4 : n ≠ "expect_column_values_to_be_unique")
    (h5 : n ≠ "expect_column_values_to_match_regex")
    (h6 : n ≠ "expect_column_values_to_be_between")
    (h7 : n ≠ "expect_column_values_to_be_in_set")
    (h8 : n ≠ "expect_column_values_to_be_of_type") :
    evalRule df exp = Except.ok
      { expectation := n, success := true, observed := Observed.str "Skipped",
        details := s!"Expectation {n} not implemented in demo" } := by
  simp [evalRule, hname, evalNamedRule, tryEvalRule, h1, h2, h3, h4, h5, h6, h7, h8]

/-- Witness for C3 on the spec's example name. -/
theorem C3_unknown_rule_skipped_witness :
    evalRule demoDF ⟨some "expect_foo_bar", none, none⟩ = Except.ok
      { expectation := "expect_foo_bar", success := true,
        observed := Observed.str "Skipped",
        details := s!"Expectation expect_foo_bar not implemented in demo" } :=
  C3_unknown_rule_skipped demoDF "expect_foo_bar" ⟨some "expect_foo_bar", none, none⟩
    rfl (by decide) (by decide) (by decide) (by decide) (by decide) (by decide)
    (by decide) (by decide)

/-- Dispatch of the row-count rule name to its branch. -/
theorem tryEval_dispatch_rowcount (df : DataFrame) (exp : RuleSpec) :
    tryEvalRule df "expect_table_row_count_to_be_between" exp =
      evalRowCountRule df exp := rfl

/-- Dispatch of the ordered-column-list rule name to its branch. -/
theorem tryEval_dispatch_columns (df : DataFrame) (exp : RuleSpec) :
    tryEvalRule df "expect_table_columns_to_match_ordered_list" exp =
      evalColumnsOrderedRule df exp := rfl

/-- Dispatch of the uniqueness rule name to its branch. -/
theorem tryEval_dispatch_unique (df : DataFrame) (exp : RuleSpec) :
    tryEvalRule df "expect_column_values_to_be_unique" exp =
      evalUniqueRule df exp := rfl

/-- Dispatch of the regex rule name to its branch. -/
theorem tryEval_dispatch_regex (df : DataFrame) (exp : RuleSpec) :
    tryEvalRule df "expect_column_values_to_match_regex" exp =
      evalRegexRule df exp := rfl

/-- Dispatch of the type rule name to its branch. -/
theorem tryEval_dispatch_oftype (df : DataFrame) (exp : RuleSpec) :
    tryEvalRule df "expect_column_values_to_be_of_type" exp =
      evalOfTypeRule df exp := rfl

/-- C5: the row-count rule is inclusive on both bounds: exactly
`min_value` or `max_value` rows pass, one below `min_value` or one above
`max_value` fails, and the observed value is the row count. -/
theorem C5_row_count_inclusive_bounds (df : DataFrame) (exp : RuleSpec)
    (p : Params) (mn mx : Int)
    (hp : exp.parameters = some p) (hmn : p.min_value = some mn)
    (hmx : p.max_value = some mx) (hle : mn ≤ mx) :
    (evalNamedRule df "expect_table_row_count_to_be_between" exp).observed =
      Observed.nat df.nrows ∧
    ((evalNamedRule df "expect_table_row_count_to_be_between" exp).success = true ↔
      mn ≤ (df.nrows : Int) ∧ (df.nrows : Int) ≤ mx) ∧
    (((df.nrows : Int) = mn ∨ (df.nrows : Int) = mx) →
      (evalNamedRule df "expect_table_row_count_to_be_between" exp).success = true) ∧
    (((df.nrows : Int) = mn - 1 ∨ (df.nrows : Int) = mx + 1) →
      (evalNamedRule df "expect_table_row_count_to_be_between" exp).success = false) := by
  have hr : evalNamedRule df "expect_table_row_count_to_be_between" exp =
      { expectation := "expect_table_row_count_to_be_between",
        success := decide (mn ≤ (df.nrows : Int) ∧ (df.nrows : Int) ≤ mx),
        observed := Observed.nat df.nrows,
        details := s!"Row count {df.nrows} should be between {mn} and {mx}" } := by
    have hb : evalRowCountRule df exp =
        Except.ok
          { expectation := "expect_table_row_count_to_be_between",
            success := decide (mn ≤ (df.nrows : Int) ∧ (df.nrows : Int) ≤ mx),
            observed := Observed.nat df.nrows,
            details := s!"Row count {df.nrows} should be between {mn} and {mx}" } := by
      simp only [evalRowCountRule, getKey, hp, hmn, hmx, exceptOkBind]
    simp only [evalNamedRule, tryEval_dispatch_rowcount, hb]
  rw [hr]
  refine ⟨rfl, by simp, ?_, ?_⟩
  · intro h
    simp only [decide_eq_true_iff]
    omega
  · intro h
    simp only [decide_eq_false_iff_not]
    omega

/-- Witness for C5 on the demo table: 3 rows against bounds [3, 5],
[1, 3], [4, 5] and [1, 2]. -/
theorem C5_row_count_inclusive_bounds_witness :
    ((⟨some "expect_table_row_count_to_be_between", none,
        some { noParams with min_value := some 3, max_value := some 5 }⟩ :
          RuleSpec).parameters =
      some { noParams with min_value := some 3, max_value := some 5 }) ∧
    (3 : Int) ≤ 5 ∧
    ((evalNamedRule demoDF "expect_table_row_count_to_be_between"
        ⟨some "expect_table_row_count_to_be_between", none,
          some { noParams with min_value := some 3, max_value := some 5 }⟩).observed =
      Observed.nat demoDF.nrows ∧
    ((evalNamedRule demoDF "expect_table_row_count_to_be_between"
        ⟨some "expect_table_row_count_to_be_between", none,
          some { noParams with min_value := some 3, max_value := some 5 }⟩).success = true ↔
      (3 : Int) ≤ (demoDF.nrows : Int) ∧ (demoDF.nrows : Int) ≤ 5) ∧
    (((demoDF.nrows : Int) = 3 ∨ (demoDF.nrows : Int) = 5) →
      (evalNamedRule demoDF "expect_table_row_count_to_be_between"
        ⟨some "expect_table_row_count_to_be_between", none,
          some { noParams with min_value := some 3, max_value := some 5 }⟩).success = true) ∧
    (((demoDF.nrows : Int) = 3 - 1 ∨ (demoDF.nrows : Int) = 5 + 1) →
      (evalNamedRule demoDF "expect_table_row_count_to_be_between"
        ⟨some "expect_table_row_count_to_be_between", none,
          some { noParams with min_value := some 3, max_value := some 5 }⟩).success = false)) :=
  ⟨rfl, by decide,
    C5_row_count_inclusive_bounds demoDF
      ⟨some "expect_table_row_count_to_be_between", none,
        some { noParams with min_value := some 3, max_value := some 5 }⟩
      { noParams with min_value := some 3, max_value := some 5 }
      3 5 rfl rfl rfl (by decide)⟩

/-- C6: the ordered-column-list rule succeeds exactly when the actual
column names equal the expected list position-for-position; a reordering
of the correct names fails, a length mismatch fails, and the observed
value is the actual column list. -/
theorem C6_columns_match_ordered (df : DataFrame) (exp : RuleSpec)
    (p : Params) (expected : List String)
    (hp : exp.parameters = some p) (hcl : p.column_list = some expected) :
    (evalNamedRule df "expect_table_columns_to_match_ordered_list" exp).observed =
      Observed.strList (df.cols.map Column.name) ∧
    ((evalNamedRule df "expect_table_columns_to_match_ordered_list" exp).success = true ↔
      df.cols.map Column.name = expected) ∧
    (List.Perm (df.cols.map Column.name) expected →
      df.cols.map Column.name ≠ expected →
      (evalNamedRule df "expect_table_columns_to_match_ordered_list" exp).success = false) ∧
    ((df.cols.map Column.name).length ≠ expected.length →
      (evalNamedRule df "expect_table_columns_to_match_ordered_list" exp).success = false) := by
  have hr : evalNamedRule df "expect_table_columns_to_match_ordered_list" exp =
      { expectation := "expect_table_columns_to_match_ordered_list",
        success := decide (df.cols.map Column.name = expected),
        observed := Observed.strList (df.cols.map Column.name),
        details := s!"Expected columns {expected}, got {df.cols.map Column.name}" } := by
    have hb : evalColumnsOrderedRule df exp =
        Except.ok
          { expectation := "expect_table_columns_to_match_ordered_list",
            success := decide (df.cols.map Column.name = expected),
            observed := Observed.strList (df.cols.map Column.name),
            details := s!"Expected columns {expected}, got {df.cols.map Column.name}" } := by
      simp only [evalColumnsOrderedRule, getKey, hp, hcl, exceptOkBind]
    simp only [evalNamedRule, tryEval_dispatch_columns, hb]
  rw [hr]
  refine ⟨rfl, by simp, ?_, ?_⟩
  · intro _ hne
    simpa [decide_eq_false_iff_not] using hne
  · intro hlen
    have hne : df.cols.map Column.name ≠ expected := fun hEq => hlen (by rw [hEq])
    simpa [decide_eq_false_iff_not] using hne

/-- Witness for C6 on the demo table and its expected column list. -/
theorem C6_columns_match_ordered_witness :
    ((⟨some "expect_table_columns_to_match_ordered_list", none,
        some { noParams with column_list := some ["id", "email", "created_date"] }⟩ :
          RuleSpec).parameters =
      some { noParams with column_list := some ["id", "email", "created_date"] }) ∧
    ((evalNamedRule demoDF "expect_table_columns_to_match_ordered_list"
        ⟨some "expect_table_columns_to_match_ordered_list", none,
          some { noParams with column_list := some ["id", "email", "created_date"] }⟩).observed =
      Observed.strList (demoDF.cols.map Column.name) ∧
    ((evalNamedRule demoDF "expect_table_columns_to_match_ordered_list"
        ⟨some "expect_table_columns_to_match_ordered_list", none,
          some { noParams with column_list := some ["id", "email", "created_date"] }⟩).success = true ↔
      demoDF.cols.map Column.name = ["id", "email", "created_date"]) ∧
    (List.Perm (demoDF.cols.map Column.name) ["id", "email", "created_date"] →
      demoDF.cols.map Column.name ≠ ["id", "email", "created_date"] →
      (evalNamedRule demoDF "expect_table_columns_to_match_ordered_list"
        ⟨some "expect_table_columns_to_match_ordered_list", none,
          some { noParams with column_list := some ["id", "email", "created_date"] }⟩).success = false) ∧
    ((demoDF.cols.map Column.name).length ≠ (["id", "email", "created_date"] : List String).length →
      (evalNamedRule demoDF "expect_table_columns_to_match_ordered_list"
        ⟨some "expect_table_columns_to_match_ordered_list", none,
          some { noParams with column_list := some ["id", "email", "created_date"] }⟩).success = false)) :=
  ⟨rfl, C6_columns_match_ordered demoDF
    ⟨some "expect_table_columns_to_match_ordered_list", none,
      some { noParams with column_list := some ["id", "email", "created_date"] }⟩
    { noParams with column_list := some ["id", "email", "created_date"] }
    ["id", "email", "created_date"] rfl rfl⟩

/-! ## The regex rule (C7) -/

/-- A column whose only non-missing value contains `@`. -/
def c7col : Column := ⟨"email", DType.object, [some (Value.str "a@x.com"), none]⟩

/-- A two-row table holding `c7col`. -/
def c7df : DataFrame := ⟨[c7col], 2⟩

/-- An email-style regex rule spec on that column. -/
def c7spec : RuleSpec :=
  ⟨some "expect_column_values_to_match_regex", some "email",
    some { noParams with regex := some "email" }⟩

/-- C7 counterexample: every non-missing value of the column contains
`@`, the pattern is email-style, yet the rule fails: the match count
(missing entries counting as non-matches) is compared against the full
row count. -/
theorem C7_counterexample_nonmissing_not_enough :
    (∀ v ∈ c7col.values.filterMap id, entryContainsAt (some v) = true) ∧
    isEmailPattern "email" = true ∧
    (evalNamedRule c7df "expect_column_values_to_match_regex" c7spec).success = false := by
  exact ⟨by decide, by decide, by decide⟩

/-- C7 (amended): for an email-style pattern the rule succeeds iff every
entry of the column is a non-missing string containing `@` (a missing or
non-string entry counts as a non-match); any other pattern succeeds
vacuously. -/
theorem C7_email_regex_semantics (df : DataFrame) (exp : RuleSpec) (p : Params)
    (colName pat : String) (col : Column)
    (hc : exp.column = some colName) (hp : exp.parameters = some p)
    (hre : p.regex = some pat) (hcol : getColE df colName = Except.ok col)
    (hlen : col.values.length = df.nrows) :
    (isEmailPattern pat = true →
      ((evalNamedRule df "expect_column_values_to_match_regex" exp).success = true ↔
        ∀ v ∈ col.values, entryContainsAt v = true)) ∧
    (isEmailPattern pat = false →
      (evalNamedRule df "expect_column_values_to_match_regex" exp).success = true) := by
  constructor
  · intro hpat
    have hb : evalRegexRule df exp =
        Except.ok
          { expectation := "expect_column_values_to_match_regex",
            success := decide (col.values.countP entryContainsAt = df.nrows),
            observed :=
              Observed.str s!"{col.values.countP entryContainsAt} valid emails out of {df.nrows}",
            details := s!"Column {colName} should match email pattern" } := by
      simp only [evalRegexRule, getKey, hc, hp, hre, exceptOkBind, hpat, if_true, hcol]
    simp only [evalNamedRule, tryEval_dispatch_regex, hb]
    rw [← hlen]
    simp [List.countP_eq_length]
  · intro hpat
    have hb : evalRegexRule df exp =
        Except.ok
          { expectation := "expect_column_values_to_match_regex", success := true,
            observed := Observed.str "Pattern check passed",
            details := s!"Column {colName} regex validation" } := by
      simp only [evalRegexRule, getKey, hc, hp, hre, exceptOkBind, hpat,
        Bool.false_eq_true, if_false]
    simp only [evalNamedRule, tryEval_dispatch_regex, hb]

/-- A column whose every entry is a string containing `@`. -/
def c7colGood : Column :=
  ⟨"email", DType.object, [some (Value.str "a@x.com"), some (Value.str "b@x.com")]⟩

/-- A two-row table holding `c7colGood`. -/
def c7dfGood : DataFrame := ⟨[c7colGood], 2⟩

/-- Witness for the amended C7 on an all-matching column. -/
theorem C7_email_regex_semantics_witness :
    getColE c7dfGood "email" = Except.ok c7colGood ∧
    c7colGood.values.length = c7dfGood.nrows ∧
    ((isEmailPattern "email" = true →
      ((evalNamedRule c7dfGood "expect_column_values_to_match_regex" c7spec).success = true ↔
        ∀ v ∈ c7colGood.values, entryContainsAt v = true)) ∧
    (isEmailPattern "email" = false →
      (evalNamedRule c7dfGood "expect_column_values_to_match_regex" c7spec).success = true)) :=
  ⟨rfl, rfl,
    C7_email_regex_semantics c7dfGood c7spec { noParams with regex := some "email" }
      "email" "email" c7colGood rfl rfl rfl rfl rfl⟩

/-! ## The uniqueness rule (C8) -/

/-- Modelled from the spec's words, for comparison with the source: the
distinct-value count when "missing values count as values for
distinctness purposes". -/
def specDistinctCountWithMissing (vals : List (Option Value)) : Nat :=
  vals.dedup.length

/-- A one-row column whose only entry is missing. -/
def c8col : Column := ⟨"id", DType.float64, [none]⟩

/-- A one-row table holding `c8col`. -/
def c8df : DataFrame := ⟨[c8col], 1⟩

/-- A uniqueness rule spec on the `id` column. -/
def c8spec : RuleSpec := ⟨some "expect_column_values_to_be_unique", some "id", none⟩

/-- C8 counterexample: counting missing values as values, the distinct
count equals the row count, so the claim predicts success; the rule
fails, because the underlying distinct count drops missing values. -/
theorem C8_counterexample_missing_drops :
    specDistinctCountWithMissing c8col.values = c8col.values.length ∧
    (evalNamedRule c8df "expect_column_values_to_be_unique" c8spec).success = false := by
  exact ⟨by decide, by decide⟩

/-- C8 (amended): the rule succeeds iff the distinct count of the
non-missing values equals the column's row count (missing values are
dropped from the distinct count, so a column containing a missing entry
fails); an all-distinct column without missing entries passes, and a
column with a duplicated non-missing value fails. -/
theorem C8_unique_rule_semantics (df : DataFrame) (exp : RuleSpec)
    (colName : String) (col : Column)
    (hc : exp.column = some colName) (hcol : getColE df colName = Except.ok col) :
    ((evalNamedRule df "expect_column_values_to_be_unique" exp).success = true ↔
      ((col.values.filterMap id).dedup).length = col.values.length) ∧
    ((col.values.filterMap id).Nodup → (∀ v ∈ col.values, v.isSome) →
      (evalNamedRule df "expect_column_values_to_be_unique" exp).success = true) ∧
    (¬ (col.values.filterMap id).Nodup →
      (evalNamedRule df "expect_column_values_to_be_unique" exp).success = false) := by
  have hb : evalUniqueRule df exp =
      Except.ok
        { expectation := "expect_column_values_to_be_unique",
          success := decide (((col.values.filterMap id).dedup).length = col.values.length),
          observed :=
            Observed.str
              s!"{((col.values.filterMap id).dedup).length} unique out of {col.values.length}",
          details := s!"Column {colName} should have all unique values" } := by
    simp only [evalUniqueRule, getKey, hc, hcol, exceptOkBind]
  have hres : (evalNamedRule df "expect_column_values_to_be_unique" exp).success =
      decide (((col.values.filterMap id).dedup).length = col.values.length) := by
    simp only [evalNamedRule, tryEval_dispatch_unique, hb]
  refine ⟨?_, ?_, ?_⟩
  · rw [hres]
    simp
  · intro hnd hsome
    rw [hres]
    have h1 : (col.values.filterMap id).dedup = col.values.filterMap id :=
      List.dedup_eq_self.mpr hnd
    have h2 : (col.values.filterMap id).length = col.values.length :=
      List.reduceOption_length_eq_iff.mpr hsome
    simp [h1, h2]
  · intro hnd
    rw [hres]
    have hsub := List.dedup_sublist (col.values.filterMap id)
    have hle := hsub.length_le
    have hlt : ((col.values.filterMap id).dedup).length <
        (col.values.filterMap id).length := by
      rcases Nat.eq_or_lt_of_le hle with heq | hlt
      · exact absurd (List.dedup_eq_self.mp (hsub.eq_of_length heq)) hnd
      · exact hlt
    have hle2 : (col.values.filterMap id).length ≤ col.values.length :=
      List.reduceOption_length_le col.values
    have hne : ((col.values.filterMap id).dedup).length ≠ col.values.length := by
      omega
    simp [hne]

/-- The demo table's `id` column. -/
def demoIdCol : Column :=
  ⟨"id", DType.int64, [some (Value.int 1), some (Value.int 2), some (Value.int 3)]⟩

/-- Witness for the amended C8 on the demo table's all-distinct
`id` column. -/
theorem C8_unique_rule_semantics_witness :
    getColE demoDF "id" = Except.ok demoIdCol ∧
    (((evalNamedRule demoDF "expect_column_values_to_be_unique" c8spec).success = true ↔
      ((demoIdCol.values.filterMap id).dedup).length = demoIdCol.values.length) ∧
    ((demoIdCol.values.filterMap id).Nodup → (∀ v ∈ demoIdCol.values, v.isSome) →
      (evalNamedRule demoDF "expect_column_values_to_be_unique" c8spec).success = true) ∧
    (¬ (demoIdCol.values.filterMap id).Nodup →
      (evalNamedRule demoDF "expect_column_values_to_be_unique" c8spec).success = false)) :=
  ⟨rfl, C8_unique_rule_semantics demoDF c8spec "id" demoIdCol rfl rfl⟩

/-- C9: only temporal expected types are checked: when the expected-type
string contains `timestamp` or `date` case-insensitively, the rule
succeeds iff the column's declared dtype is the datetime dtype; any
other expected type passes vacuously; the observed value is the column's
declared dtype as text. -/
theorem C9_type_rule_semantics (df : DataFrame) (exp : RuleSpec) (p : Params)
    (colName tyStr : String) (col : Column)
    (hc : exp.column = some colName) (hp : exp.parameters = some p)
    (ht : p.type_ = some tyStr) (hcol : getColE df colName = Except.ok col) :
    (evalNamedRule df "expect_column_values_to_be_of_type" exp).observed =
      Observed.str col.dtype.render ∧
    (isTemporalType tyStr = true →
      ((evalNamedRule df "expect_column_values_to_be_of_type" exp).success = true ↔
        col.dtype = DType.datetime64)) ∧
    (isTemporalType tyStr = false →
      (evalNamedRule df "expect_column_values_to_be_of_type" exp).success = true) := by
  have hb : evalOfTypeRule df exp =
      Except.ok
        { expectation := "expect_column_values_to_be_of_type",
          success :=
            if isTemporalType tyStr then decide (col.dtype = DType.datetime64)
            else true,
          observed := Observed.str col.dtype.render,
          details := s!"Column {colName} should be of type {tyStr}" } := by
    simp only [evalOfTypeRule, getKey, hc, hp, ht, hcol, exceptOkBind]
  have hres : evalNamedRule df "expect_column_values_to_be_of_type" exp =
      { expectation := "expect_column_values_to_be_of_type",
        success :=
          if isTemporalType tyStr then decide (col.dtype = DType.datetime64)
          else true,
        observed := Observed.str col.dtype.render,
        details := s!"Column {colName} should be of type {tyStr}" } := by
    simp only [evalNamedRule, tryEval_dispatch_oftype, hb]
  rw [hres]
  refine ⟨rfl, ?_, ?_⟩
  · intro htmp
    simp [htmp]
  · intro htmp
    simp [htmp]

/-- Witness for C9 on the demo table's datetime column with the demo's
`TimestampType` expected type. -/
theorem C9_type_rule_semantics_witness :
    isTemporalType "TimestampType" = true ∧
    getColE demoDF "created_date" = Except.ok
      ⟨"created_date", DType.datetime64,
        [some (Value.ts 10), some (Value.ts 20), some (Value.ts 30)]⟩ ∧
    ((evalNamedRule demoDF "expect_column_values_to_be_of_type"
        ⟨some "expect_column_values_to_be_of_type", some "created_date",
          some { noParams with type_ := some "TimestampType" }⟩).observed =
      Observed.str (⟨"created_date", DType.datetime64,
        [some (Value.ts 10), some (Value.ts 20), some (Value.ts 30)]⟩ :
          Column).dtype.render ∧
    (isTemporalType "TimestampType" = true →
      ((evalNamedRule demoDF "expect_column_values_to_be_of_type"
        ⟨some "expect_column_values_to_be_of_type", some "created_date",
          some { noParams with type_ := some "TimestampType" }⟩).success = true ↔
        (⟨"created_date", DType.datetime64,
          [some (Value.ts 10), some (Value.ts 20), some (Value.ts 30)]⟩ :
            Column).dtype = DType.datetime64)) ∧
    (isTemporalType "TimestampType" = false →
      (evalNamedRule demoDF "expect_column_values_to_be_of_type"
        ⟨some "expect_column_values_to_be_of_type", some "created_date",
          some { noParams with type_ := some "TimestampType" }⟩).success = true)) :=
  ⟨by decide, rfl,
    C9_type_rule_semantics demoDF
      ⟨some "expect_column_values_to_be_of_type", some "created_date",
        some { noParams with type_ := some "TimestampType" }⟩
      { noParams with type_ := some "TimestampType" }
      "created_date" "TimestampType"
      ⟨"created_date", DType.datetime64,
        [some (Value.ts 10), some (Value.ts 20), some (Value.ts 30)]⟩
      rfl rfl rfl rfl⟩
